import Mathlib

/-
Verification of the order-intake workflow of the razorpay-create-order
repository against its specification.  The repository is a family of
serverless handler variants; each namespace below is a shallow embedding of
one variant (file and line numbers are given in the doc comments).  External
collaborators (the Razorpay payment gateway and the Appwrite document store)
are modelled as behaviour parameters; JavaScript string/number semantics used
by the handlers (truthiness of empty strings and null, `||` fallbacks,
`Math.round`, `slice`) are modelled by the helper functions in the first
section.  Restrictions of the model: request fields carry the JSON shapes the
handlers actually destructure (numbers as rationals or integers, no NaN), and
JSON re-serialisation of parsed objects renders the keys the handlers read,
in a fixed order.
-/

namespace RazorpayCreateOrder

/-- JS `a || b` on two nullable string expressions: `null`/`undefined` and
the empty string are falsy and fall through to `b`. -/
def jsOrS : Option String → Option String → Option String
  | some str, b => if str = "" then b else some str
  | none, b => b

/-- JS `x || null` on a nullable string: an empty string collapses to null. -/
def toNullable : Option String → Option String
  | some str => if str = "" then none else some str
  | none => none

/-- JS `(a || b) || null`. -/
def orNull2 (a b : Option String) : Option String := toNullable (jsOrS a b)

/-- JS `a || b || dflt` for a string with a non-empty literal default. -/
def jsOrD (a b : Option String) (dflt : String) : String :=
  match toNullable (jsOrS a b) with
  | some v => v
  | none => dflt

/-- JS `Math.round`, which rounds half-up: `Math.round(x) = ⌊x + 0.5⌋`. -/
def jsRound (q : ℚ) : ℤ := ⌊q + 1/2⌋

/-- JS `s.slice(0, n)` (the handlers only ever slice from index 0). -/
def jsSlice0 (str : String) (n : Nat) : String := ⟨str.data.take n⟩

/-- JS `s.toLowerCase()` (applied by the handlers to the ASCII payment
method name). -/
def jsToLower (str : String) : String := ⟨str.data.map Char.toLower⟩

/-- One line item as the handlers destructure it out of the parsed JSON
body.  The record carries exactly the keys any of the handler variants
read; `none` stands for an absent (or `null`) key.  Numeric item fields are
modelled as integers. -/
structure ItemRec where
  productId : Option String := none
  id : Option String := none
  name : Option String := none
  productName : Option String := none
  title : Option String := none
  quantity : Option Int := none
  qty : Option Int := none
  size : Option String := none
  s : Option String := none
  sizeOption : Option String := none
  item_size : Option String := none
  price : Option Int := none
  amount : Option Int := none
deriving Repr, DecidableEq

/-- One shipping address as the handlers destructure it, covering both the
camelCase and snake_case key aliases the sources read. -/
structure ShipRec where
  fullName : Option String := none
  full_name : Option String := none
  name : Option String := none
  phone : Option String := none
  line1 : Option String := none
  line_1 : Option String := none
  address_line1 : Option String := none
  line2 : Option String := none
  line_2 : Option String := none
  city : Option String := none
  state : Option String := none
  postalCode : Option String := none
  postal_code : Option String := none
  zip : Option String := none
  country : Option String := none
deriving Repr, DecidableEq

/-- The argument object of `razorpay.orders.create`. -/
structure GatewayReq where
  amount : Int
  currency : String
  receipt : String
deriving Repr, DecidableEq

/-- The order object returned by the payment gateway (the fields the
handlers read from the Razorpay response). -/
structure RemoteOrder where
  id : String
  amount : Int
  currency : String
  receipt : String
deriving Repr, DecidableEq

/-- JSON string escaping for the serialisers (quote and backslash; the
handlers never store control characters in the claims under check). -/
def jsonEscapeChar (c : Char) : String :=
  if c = '"' then "\\\"" else if c = '\\' then "\\\\" else String.singleton c

def jsonEscape (str : String) : String :=
  str.data.foldl (fun acc c => acc ++ jsonEscapeChar c) ""

def jsonStr (str : String) : String := "\"" ++ jsonEscape str ++ "\""

def jsonOptStr : Option String → String
  | none => "null"
  | some str => jsonStr str

def jsonOptInt : Option Int → String
  | none => "null"
  | some n => toString n

/-- `JSON.stringify` of one parsed line item: renders the keys carried by
`ItemRec` that are present, in the record's field order. -/
def itemRecPairs (it : ItemRec) : List (Option String) :=
  [ it.productId.map (fun v => "\"productId\":" ++ jsonStr v),
    it.id.map (fun v => "\"id\":" ++ jsonStr v),
    it.name.map (fun v => "\"name\":" ++ jsonStr v),
    it.productName.map (fun v => "\"productName\":" ++ jsonStr v),
    it.title.map (fun v => "\"title\":" ++ jsonStr v),
    it.quantity.map (fun v => "\"quantity\":" ++ toString v),
    it.qty.map (fun v => "\"qty\":" ++ toString v),
    it.size.map (fun v => "\"size\":" ++ jsonStr v),
    it.s.map (fun v => "\"s\":" ++ jsonStr v),
    it.sizeOption.map (fun v => "\"sizeOption\":" ++ jsonStr v),
    it.item_size.map (fun v => "\"item_size\":" ++ jsonStr v),
    it.price.map (fun v => "\"price\":" ++ toString v),
    it.amount.map (fun v => "\"amount\":" ++ toString v) ]

def renderItemRec (it : ItemRec) : String :=
  "\x7b" ++ String.intercalate "," (itemRecPairs it).reduceOption ++ "\x7d"

/-- `JSON.stringify(itemsArr)`. -/
def renderItems (items : List ItemRec) : String :=
  "[" ++ String.intercalate "," (items.map renderItemRec) ++ "]"

def shipRecPairs (sr : ShipRec) : List (Option String) :=
  [ sr.fullName.map (fun v => "\"fullName\":" ++ jsonStr v),
    sr.full_name.map (fun v => "\"full_name\":" ++ jsonStr v),
    sr.name.map (fun v => "\"name\":" ++ jsonStr v),
    sr.phone.map (fun v => "\"phone\":" ++ jsonStr v),
    sr.line1.map (fun v => "\"line1\":" ++ jsonStr v),
    sr.line_1.map (fun v => "\"line_1\":" ++ jsonStr v),
    sr.address_line1.map (fun v => "\"address_line1\":" ++ jsonStr v),
    sr.line2.map (fun v => "\"line2\":" ++ jsonStr v),
    sr.line_2.map (fun v => "\"line_2\":" ++ jsonStr v),
    sr.city.map (fun v => "\"city\":" ++ jsonStr v),
    sr.state.map (fun v => "\"state\":" ++ jsonStr v),
    sr.postalCode.map (fun v => "\"postalCode\":" ++ jsonStr v),
    sr.postal_code.map (fun v => "\"postal_code\":" ++ jsonStr v),
    sr.zip.map (fun v => "\"zip\":" ++ jsonStr v),
    sr.country.map (fun v => "\"country\":" ++ jsonStr v) ]

def renderShipRec (sr : ShipRec) : String :=
  "\x7b" ++ String.intercalate "," (shipRecPairs sr).reduceOption ++ "\x7d"

def renderShipArr (l : List ShipRec) : String :=
  "[" ++ String.intercalate "," (l.map renderShipRec) ++ "]"

/-- `JSON.stringify` of a gateway order (the four fields the model keeps of
the Razorpay response object). -/
def renderRemoteOrder (g : RemoteOrder) : String :=
  "\x7b\"id\":" ++ jsonStr g.id ++ ",\"amount\":" ++ toString g.amount ++
  ",\"currency\":" ++ jsonStr g.currency ++ ",\"receipt\":" ++ jsonStr g.receipt ++ "\x7d"

namespace IndexJs

/-
Embedding of the first handler in src/index.js ("createOrder.js (Appwrite
Function) - defensive + debug-friendly", lines 1-206).
-/

/-- The JSON request body as destructured on src/index.js line 56:
`const { amount, currency = "INR", userId, items, shipping = {},
payment_method } = bodyData`.  `items` is modelled as an optional list (the
code wraps a single non-array item into a one-element array). -/
structure Body where
  amount : Option ℚ := none
  currency : Option String := none
  userId : Option String := none
  items : Option (List ItemRec) := none
  shipping : Option ShipRec := none
  payment_method : Option String := none
deriving Repr, DecidableEq

/-- One element of `summaryArray` (src/index.js lines 68-77), rendered as
`JSON.stringify` renders it (object keys in literal order). -/
def summaryItemJson (it : ItemRec) : String :=
  "\x7b\"productId\":" ++ jsonOptStr (it.productId <|> it.id) ++
  ",\"name\":" ++ jsonOptStr (it.name <|> it.productName) ++
  ",\"qty\":" ++ toString ((it.quantity <|> it.qty).getD 1) ++
  ",\"size\":" ++ jsonOptStr it.size ++
  ",\"price\":" ++ jsonOptInt it.price ++ "\x7d"

/-- `items_summary_string = JSON.stringify(summaryArray)` before the length
cap (src/index.js line 78). -/
def itemsSummaryRaw (itemsArr : List ItemRec) : String :=
  "[" ++ String.intercalate "," (itemsArr.map summaryItemJson) ++ "]"

/-- src/index.js line 83: `if (items_summary_string.length > 999)
items_summary_string = items_summary_string.slice(0, 999)`. -/
def truncate999 (s0 : String) : String :=
  if 999 < s0.length then jsSlice0 s0 999 else s0

def items_summary_of (itemsArr : List ItemRec) : String :=
  truncate999 (itemsSummaryRaw itemsArr)

/-- src/index.js line 89: `firstItem && ("size" in firstItem) ?
(firstItem.size ?? "N/A") : "N/A"` (a present non-null size wins, anything
else degrades to "N/A"). -/
def sizeValue (itemsArr : List ItemRec) : String :=
  match itemsArr.head? with
  | some it => it.size.getD "N/A"
  | none => "N/A"

/-- `orderDocPrimary` (src/index.js lines 108-133).  The fallback document
of lines 165-167 is the same record with `items := none` and
`items_summary` set, mirroring `delete orderDocFallback.items` and the
added `items_summary` attribute. -/
structure OrderDoc where
  userId : Option String
  size : String
  items : Option String
  items_json : String
  amount : ℚ
  amountPaise : Int
  currency : String
  razorpay_order_id : String
  razorpay_payment_id : Option String
  razorpay_signature : Option String
  status : String
  receipt : String
  payment_method : Option String
  shipping_full_name : Option String
  shipping_phone : Option String
  shipping_line_1 : Option String
  shipping_city : Option String
  shipping_postal_code : Option String
  shipping_country : Option String
  shipping : ShipRec
  verification_raw : Option String
  order_id : Option String
  items_summary : Option String
deriving Repr, DecidableEq

/-- The JSON payloads this handler passes to `res.json` (each field is a key
of one of the literal response objects in src/index.js). -/
structure JsonResp where
  success : Bool
  message : Option String := none
  errorField : Option String := none
  razorpayOrderId : Option String := none
  razorpayAmount : Option Int := none
  razorpayCurrency : Option String := none
  razorpayReceipt : Option String := none
  documentId : Option String := none
  used : Option String := none
  warning : Option String := none
  primaryError : Option String := none
  primaryAttemptError : Option String := none
  fallbackAttemptError : Option String := none
deriving Repr, DecidableEq

/-- A handler response: `res.text` or `res.json(payload, status)`. -/
inductive Resp where
  | text (s0 : String)
  | json (payload : JsonResp) (status : Nat)
deriving Repr, DecidableEq

/-- The observable outcome of one invocation: the response, the gateway
calls made, and the document-store contents after the run (successfully
created documents are appended to `store`). -/
structure Outcome where
  resp : Resp
  gatewayCalls : List GatewayReq
  store : List (String × OrderDoc)
deriving Repr, DecidableEq

def respStatus : Outcome → Option Nat
  | ⟨.json _ st, _, _⟩ => some st
  | ⟨.text _, _, _⟩ => none

def respSuccess : Outcome → Option Bool
  | ⟨.json p _, _, _⟩ => some p.success
  | ⟨.text _, _, _⟩ => none

def respRazorpayAmount : Outcome → Option Int
  | ⟨.json p _, _, _⟩ => p.razorpayAmount
  | ⟨.text _, _, _⟩ => none

/-- The handler of src/index.js lines 31-206.  Parameters model the
environment: `configOk` is the required-configuration check of lines 36-48;
`parsed` is the result of `parseJSON` before its catch-all (a failed parse
gives `none`, which the handler turns into the empty object, line 5-12);
`gateway` is `razorpay.orders.create`; `dbErr1`/`dbErr2` are the outcomes
of the primary and fallback `createDocument` calls (`none` = success);
`docId1`/`docId2` are the two ids drawn from `sdk.ID.unique()`; `t` and `r`
are `Date.now()` and the random receipt suffix; `store0` is the document
store before the request. -/
def run (configOk : Bool) (method : String) (parsed : Option Body)
    (gateway : GatewayReq → Except String RemoteOrder)
    (dbErr1 dbErr2 : Option String) (docId1 docId2 : String)
    (t r : Nat) (store0 : List (String × OrderDoc)) : Outcome :=
  if configOk = false then
    ⟨.json { success := false, errorField := some "Missing required configuration" } 500,
     [], store0⟩
  else if method = "POST" then
    let bodyData := parsed.getD {}
    match bodyData.amount with
    | none => ⟨.json { success := false, message := some "Valid amount required" } 400, [], store0⟩
    | some amountNumber =>
      if amountNumber ≤ 0 then
        ⟨.json { success := false, message := some "Valid amount required" } 400, [], store0⟩
      else
        let itemsArr := bodyData.items.getD []
        let items_summary_string := items_summary_of itemsArr
        let items_json := renderItems itemsArr
        let sizeV := sizeValue itemsArr
        let amountPaise := jsRound (amountNumber * 100)
        let receipt := "order_rcpt_" ++ toString t ++ "_" ++ toString r
        let currency := bodyData.currency.getD "INR"
        let gwReq : GatewayReq := ⟨amountPaise, currency, receipt⟩
        match gateway gwReq with
    | .error e =>
        ⟨.json { success := false, errorField := some e } 500, [gwReq], store0⟩
    | .ok razorpayOrder =>
        let shipping := bodyData.shipping.getD {}
        let orderDocPrimary : OrderDoc :=
          { userId := toNullable bodyData.userId
            size := sizeV
            items := some items_summary_string
            items_json := items_json
            amount := amountNumber
            amountPaise := amountPaise
            currency := currency
            razorpay_order_id := razorpayOrder.id
            razorpay_payment_id := none
            razorpay_signature := none
            status := "created"
            receipt := receipt
            payment_method := toNullable bodyData.payment_method
            shipping_full_name := orNull2 shipping.full_name shipping.name
            shipping_phone := toNullable shipping.phone
            shipping_line_1 := orNull2 shipping.line_1 shipping.address_line1
            shipping_city := toNullable shipping.city
            shipping_postal_code := orNull2 shipping.postal_code shipping.zip
            shipping_country := toNullable shipping.country
            shipping := shipping
            verification_raw := none
            order_id := toNullable (some razorpayOrder.receipt)
            items_summary := none }
        match dbErr1 with
        | none =>
          ⟨.json { success := true
                   razorpayOrderId := some razorpayOrder.id
                   razorpayAmount := some razorpayOrder.amount
                   razorpayCurrency := some razorpayOrder.currency
                   razorpayReceipt := some razorpayOrder.receipt
                   documentId := some docId1
                   used := some "primary" } 201,
           [gwReq], store0 ++ [(docId1, orderDocPrimary)]⟩
        | some createErrMsg =>
          let orderDocFallback : OrderDoc :=
            { orderDocPrimary with items := none, items_summary := some items_summary_string }
          match dbErr2 with
          | none =>
            ⟨.json { success := true
                     razorpayOrderId := some razorpayOrder.id
                     razorpayAmount := some razorpayOrder.amount
                     razorpayCurrency := some razorpayOrder.currency
                     razorpayReceipt := some razorpayOrder.receipt
                     documentId := some docId2
                     used := some "fallback_items_summary"
                     warning := some "Primary create failed; fallback with items_summary succeeded. Consider updating collection schema to accept items as text or rename attribute."
                     primaryError := some createErrMsg } 201,
             [gwReq], store0 ++ [(docId2, orderDocFallback)]⟩
          | some fallbackErrMsg =>
            ⟨.json { success := false
                     errorField := some "Appwrite createDocument failed for both primary and fallback payloads."
                     primaryAttemptError := some createErrMsg
                     fallbackAttemptError := some fallbackErrMsg } 500,
             [gwReq], store0⟩
  else if method = "GET" then
    ⟨.text "🚀 Create-Order function live", [], store0⟩
  else
    ⟨.json { success := false, message := some ("Method " ++ method ++ " not allowed") } 405,
     [], store0⟩

/-- Documents in the store carrying a given gateway order id (the natural
key of the spec). -/
def countKey (store : List (String × OrderDoc)) (k : String) : Nat :=
  (store.filter (fun d => d.2.razorpay_order_id = k)).length

end IndexJs

namespace Part005

/-
Embedding of the item-label preparation of src/unnamed/part_005
("createOrder.js - Optimized for speed", lines 93-107).  Item entries that
are plain strings instead of objects are outside this model (the claims only
exercise object items).
-/

def MAX_LABEL_LEN : Nat := 490

/-- The label built for one item before the length clip (part_005 lines
96-99): the name falls back from it.name to it.title to "item_<idx+1>", and
a truthy it.size appends " (Size: <size>)". -/
def rawLabel (idx : Nat) (it : ItemRec) : String :=
  let nm := jsOrD it.name it.title ("item_" ++ toString (idx + 1))
  let sz := match toNullable it.size with
    | some v => " (Size: " ++ v ++ ")"
    | none => ""
  nm ++ sz

/-- part_005 line 100: `label.length > MAX_LABEL_LEN ?
label.slice(0, MAX_LABEL_LEN) + "…" : label`. -/
def clip (label : String) : String :=
  if MAX_LABEL_LEN < label.length then jsSlice0 label MAX_LABEL_LEN ++ "…" else label

/-- `itemsForDb` (part_005 lines 94-107). -/
def itemsForDb (items : List ItemRec) : List String :=
  items.mapIdx (fun idx it => clip (rawLabel idx it))

end Part005

/-
Shared request-body shape and helper logic of the part_006 (second variant)
and part_007 handlers, which destructure the same keys (part_006 lines
153-162, part_007 lines 66-75) and derive a representative size through the
same alias chain (part_006 lines 204-213, part_007 lines 113-122).
-/

/-- The `shipping` value of the request body: absent, a single object, or an
array of objects. -/
inductive ShipVal where
  | absent
  | obj (sr : ShipRec)
  | arr (l : List ShipRec)
deriving Repr, DecidableEq

/-- The JSON request body destructured by part_006 and part_007.  A non-integer
`shippingPrimaryIndex` collapses to the destructuring default 0 (the
`Number.isInteger` guard), so the field is modelled as an integer. -/
structure OrderBody where
  amount : Option ℚ := none
  currency : Option String := none
  userId : Option String := none
  items : List ItemRec := []
  paymentMethod : Option String := none
  payment_method : Option String := none
  shipping : ShipVal := .absent
  shippingPrimaryIndex : Int := 0
deriving Repr, DecidableEq

/-- Normalise `shipping` into an array (part_006 lines 181-184, part_007
lines 88-91). -/
def shippingArrayOf : ShipVal → List ShipRec
  | .arr l => l
  | .obj sr => [sr]
  | .absent => []

/-- JS `l[i]` with an integer index (negative indices read `undefined`). -/
def listAt (l : List ShipRec) (i : Int) : Option ShipRec :=
  if 0 ≤ i then l.get? i.toNat else none

/-- `shippingArray[primaryIndex] || shippingArray[0] || {}` (part_006 line
191, part_007 line 101). -/
def primaryShippingOf (l : List ShipRec) (i : Int) : ShipRec :=
  ((listAt l i) <|> l.get? 0).getD {}

/-- `it.size || it.s || it.sizeOption || it.item_size` as a nullable string. -/
def sizeAlias (it : ItemRec) : Option String :=
  toNullable (jsOrS it.size (jsOrS it.s (jsOrS it.sizeOption it.item_size)))

/-- Derivation of the representative size (part_006 lines 204-213, part_007
lines 113-122): the first item's size alias if present, else the first item
in the list carrying any size alias. -/
def primarySizeOf (items : List ItemRec) : Option String :=
  match items.head? with
  | none => none
  | some first =>
    match sizeAlias first with
    | some sz => some sz
    | none => (items.find? (fun it => (sizeAlias it).isSome)).bind sizeAlias

/-- `normalizeStr(x) || null` with part_007's `normalizeStr` (trim when the
value is a string). -/
def trimOrNull (o : Option String) : Option String :=
  toNullable (o.map (fun v => v.trim))

/-- The record id and whether the document-store write was an insert of a
new document or an update of an existing one. -/
inductive DbAction where
  | created (docId : Nat)
  | updated (docId : Nat)
deriving Repr, DecidableEq

/-- Look up an existing order document by natural key:
`listDocuments(..., [Query.equal("...", key), Query.limit(1)])` followed by
`documents[0]` (part_006 lines 313-322, part_007 lines 236-245). -/
def findByKey {α : Type} (key : α → String) (k : String)
    (store : List (Nat × α)) : Option (Nat × α) :=
  store.find? (fun d => key d.2 = k)

/-- `updateDocument(..., existing.$id, payload)`: the attributes of the
stored document are replaced by the new payload. -/
def updateAt {α : Type} (store : List (Nat × α)) (docId : Nat) (p : α) :
    List (Nat × α) :=
  store.map (fun d => if d.1 = docId then (d.1, p) else d)

/-- The upsert step shared by part_006 (lines 312-330) and part_007 (lines
235-253): look up by `razorpay_order_id`; update the found document, else
create a new one under a fresh id. -/
def upsertByOrderId {α : Type} (key : α → String) (store : List (Nat × α))
    (freshId : Nat) (p : α) : List (Nat × α) × DbAction :=
  match findByKey key (key p) store with
  | some existing => (updateAt store existing.1 p, .updated existing.1)
  | none => (store ++ [(freshId, p)], .created freshId)

namespace Part007

/-
Embedding of src/unnamed/part_007 ("createOrder.js - Create order for COD
or Razorpay and save shipping/phone to orders collection", lines 1-277).
-/

def TRUNCATE_MAX : Nat := 9999

/-- `stringifyItem` (part_007 lines 16-42), restricted to object items (the
string/number/empty cases of the source handle non-object entries). -/
def stringifyItem (it : ItemRec) : String :=
  let nm := jsOrD (jsOrS it.name it.title) (jsOrS it.productId it.id) "item"
  let priceVal : Option Int :=
    match (match it.price with | some p => some p | none => it.amount) with
    | some p => if p = 0 then none else some p
    | none => none
  let szLabel := match sizeAlias it with
    | some v => " (Size: " ++ v ++ ")"
    | none => ""
  let priceLabel := match priceVal with
    | some p => " - ₹" ++ toString p
    | none => ""
  let label := nm ++ szLabel ++ priceLabel
  let jsonFallback := renderItemRec it
  let final := if 6 ≤ label.length then label else jsonFallback
  if TRUNCATE_MAX < final.length then jsSlice0 final TRUNCATE_MAX else final

/-- `itemsForColumn` (part_007 lines 163-169): each item stringified and
clipped again to the per-string limit. -/
def itemsForColumn (items : List ItemRec) : List String :=
  items.map (fun it =>
    let s1 := stringifyItem it
    if TRUNCATE_MAX < s1.length then jsSlice0 s1 TRUNCATE_MAX else s1)

/-- The document payload written to the orders collection (part_007 lines
191-233). -/
structure Payload7 where
  order_id : String
  userId : String
  amount : Int
  amountPaise : Int
  currency : String
  razorpay_order_id : String
  items : List String
  items_json : String
  payment_method : String
  status : String
  shipping : List ShipRec
  shipping_full_name : Option String
  shipping_phone : Option String
  shipping_line_1 : Option String
  shipping_line_2 : Option String
  shipping_city : Option String
  shipping_postal_code : Option String
  shipping_country : String
  size : String
  receipt : Option String
  verification_raw : String
deriving Repr, DecidableEq

/-- `verification_raw = JSON.stringify({ razorpayOrder: razorpayOrder || null })`
(part_007 line 230). -/
def verificationRaw (g : Option RemoteOrder) : String :=
  "\x7b\"razorpayOrder\":" ++ (match g with
    | none => "null"
    | some o => renderRemoteOrder o) ++ "\x7d"

/-- The JSON response payloads of part_007 (success response lines 264-272,
error responses elsewhere). -/
structure Resp7 where
  success : Bool
  message : Option String := none
  errorStr : Option String := none
  payment_method : Option String := none
  order_id : Option String := none
  amount : Option Int := none
  currency : Option String := none
  razorpayOrder : Option RemoteOrder := none
  savedOrderDoc : Option (Nat × Payload7) := none
deriving Repr, DecidableEq

inductive Resp where
  | text (s0 : String)
  | json (payload : Resp7) (status : Nat)
deriving Repr, DecidableEq

structure Outcome where
  resp : Resp
  gatewayCalls : List GatewayReq
  store : List (Nat × Payload7)
  dbAction : Option DbAction
deriving Repr, DecidableEq

def respStatus : Outcome → Option Nat
  | ⟨.json _ st, _, _, _⟩ => some st
  | ⟨.text _, _, _, _⟩ => none

def respAmount : Outcome → Option Int
  | ⟨.json p _, _, _, _⟩ => p.amount
  | ⟨.text _, _, _, _⟩ => none

def respOrderId : Outcome → Option String
  | ⟨.json p _, _, _, _⟩ => p.order_id
  | ⟨.text _, _, _, _⟩ => none

/-- The savedOrderDoc carried by the response, if any. -/
def savedDocOf : Outcome → Option (Nat × Payload7)
  | ⟨.json p _, _, _, _⟩ => p.savedOrderDoc
  | ⟨.text _, _, _, _⟩ => none

/-- The handler of part_007 lines 44-277.  `credsOk` models the Razorpay
credential env check (line 142), `configured` the Appwrite env check (line
181); `dbErr` is the outcome of the document write (`none` = success);
`freshId` is the id drawn from `ID.unique()`; `t` and `r` are `Date.now()`
and the COD random suffix; `store0` is the orders collection before the
request.  The lookup of lines 236-245 is modelled as always succeeding (its
catch falls back to a create). -/
def run (method : String) (parsed : Option OrderBody) (credsOk configured : Bool)
    (gateway : GatewayReq → Except String RemoteOrder) (dbErr : Option String)
    (freshId t r : Nat) (store0 : List (Nat × Payload7)) : Outcome :=
  if method = "POST" then
    let body := parsed.getD {}
    let pm := jsToLower (jsOrD body.paymentMethod body.payment_method "razorpay")
    if toNullable body.userId = none then
      ⟨.json { success := false,
               message := some "userId is required. Please login and send userId." } 400,
       [], store0, none⟩
    else
      let userId := body.userId.getD ""
      let shippingArray := shippingArrayOf body.shipping
      if shippingArray = [] then
        ⟨.json { success := false,
                 message := some "shipping is required. Provide shipping object/array." } 400,
         [], store0, none⟩
      else
        let primaryShipping := primaryShippingOf shippingArray body.shippingPrimaryIndex
        let shipping_full_name := trimOrNull (jsOrS primaryShipping.fullName primaryShipping.full_name)
        let shipping_phone := trimOrNull primaryShipping.phone
        let shipping_line_1 := trimOrNull (jsOrS primaryShipping.line1 primaryShipping.line_1)
        let shipping_line_2 := trimOrNull (jsOrS primaryShipping.line2 primaryShipping.line_2)
        let shipping_city := trimOrNull primaryShipping.city
        let shipping_postal_code := trimOrNull (jsOrS primaryShipping.postalCode primaryShipping.postal_code)
        let shipping_country := (trimOrNull primaryShipping.country).getD "India"
        match primarySizeOf body.items with
        | none =>
          ⟨.json { success := false,
                   message := some "size is required (e.g. send size in items[0].size)." } 400,
           [], store0, none⟩
        | some primarySize =>
          let amountOk : Bool := match body.amount with
            | none => false
            | some a => decide (0 < a)
          if pm = "razorpay" ∧ amountOk = false then
            ⟨.json { success := false,
                     message := some "Valid amount (in rupees) required for razorpay orders" } 400,
             [], store0, none⟩
          else
            let amountPaiseFromClient := jsRound ((body.amount.getD 0) * 100)
            let currency := body.currency.getD "INR"
            if pm = "razorpay" ∧ credsOk = false then
              ⟨.json { success := false,
                       message := some "Razorpay credentials not configured" } 500,
               [], store0, none⟩
            else
              let gwReq : GatewayReq :=
                ⟨amountPaiseFromClient, currency, "order_rcpt_" ++ toString t⟩
              let gwStep : Except String (Option RemoteOrder × String × Int) :=
                if pm = "razorpay" then
                  match gateway gwReq with
                  | .error e => .error e
                  | .ok o => .ok (some o, o.id, o.amount)
                else
                  .ok (none, "cod_" ++ toString t ++ "_" ++ toString r, amountPaiseFromClient)
              match gwStep with
              | .error e =>
                ⟨.json { success := false, errorStr := some e } 500, [gwReq], store0, none⟩
              | .ok (razorpayOrder, razorpay_order_id, amountPaise) =>
                let calls := if pm = "razorpay" then [gwReq] else []
                let payload : Payload7 :=
                  { order_id := razorpay_order_id
                    userId := userId
                    amount := amountPaise
                    amountPaise := amountPaise
                    currency := currency
                    razorpay_order_id := razorpay_order_id
                    items := itemsForColumn body.items
                    items_json := renderItems body.items
                    payment_method := pm
                    status := if pm = "cod" then "pending" else "created"
                    shipping := shippingArray
                    shipping_full_name := shipping_full_name
                    shipping_phone := shipping_phone
                    shipping_line_1 := shipping_line_1
                    shipping_line_2 := shipping_line_2
                    shipping_city := shipping_city
                    shipping_postal_code := shipping_postal_code
                    shipping_country := shipping_country
                    size := primarySize
                    receipt := toNullable (razorpayOrder.map RemoteOrder.receipt)
                    verification_raw := verificationRaw razorpayOrder }
                if configured then
                  match dbErr with
                  | some e =>
                    ⟨.json { success := false, message := some "Failed saving order to DB",
                             errorStr := some e } 500, calls, store0, none⟩
                  | none =>
                    let up := upsertByOrderId Payload7.razorpay_order_id store0 freshId payload
                    let savedId := match up.2 with
                      | .created i => i
                      | .updated i => i
                    ⟨.json { success := true
                             payment_method := some pm
                             order_id := some razorpay_order_id
                             amount := some amountPaise
                             currency := some currency
                             razorpayOrder := razorpayOrder
                             savedOrderDoc := some (savedId, payload) } 200,
                     calls, up.1, some up.2⟩
                else
                  ⟨.json { success := true
                           payment_method := some pm
                           order_id := some razorpay_order_id
                           amount := some amountPaise
                           currency := some currency
                           razorpayOrder := razorpayOrder
                           savedOrderDoc := none } 200,
                   calls, store0, none⟩
  else if method = "GET" then
    ⟨.text "createOrder function is live", [], store0, none⟩
  else
    ⟨.json { success := false, message := some ("Method " ++ method ++ " not allowed") } 405,
     [], store0, none⟩

/-- Documents in the store carrying a given natural key. -/
def countKey (store : List (Nat × Payload7)) (k : String) : Nat :=
  (store.filter (fun d => d.2.razorpay_order_id = k)).length

end Part007

namespace Part006B

/-
Embedding of the second handler in src/unnamed/part_006 ("createOrder.js -
Create order for COD or Razorpay and save shipping/phone to Appwrite orders
collection", lines 62-356).
-/

/-- part_006 line 92: `normalizeStr` returns the trimmed string, or "" for a
null/undefined value. -/
def normalizeStr (v : Option String) : String := (v.getD "").trim

/-- `buildShippingShort` (part_006 lines 95-112): push the present address
parts, join with ", ", cap at 999 characters. -/
def buildShippingShort (sr : ShipRec) : String :=
  let p1 := if (toNullable (jsOrS sr.fullName sr.full_name)).isSome
    then [normalizeStr (jsOrS sr.fullName sr.full_name)] else []
  let p2 := if (toNullable (jsOrS sr.line1 sr.line_1)).isSome
    then [normalizeStr (jsOrS sr.line1 sr.line_1)] else []
  let p3 := if (toNullable (jsOrS sr.line2 sr.line_2)).isSome
    then (let l2 := normalizeStr (jsOrS sr.line2 sr.line_2)
          if l2 = "" then [] else [l2]) else []
  let p4 := if (toNullable sr.city).isSome then [normalizeStr sr.city] else []
  let p5 := if (toNullable sr.state).isSome then [normalizeStr sr.state] else []
  let p6 := if (toNullable (jsOrS sr.postalCode sr.postal_code)).isSome
    then [normalizeStr (jsOrS sr.postalCode sr.postal_code)] else []
  let p7 := if (toNullable sr.country).isSome then [normalizeStr sr.country] else []
  let p8 := if (toNullable sr.phone).isSome then ["Ph: " ++ normalizeStr sr.phone] else []
  let joined := String.intercalate ", "
    ((p1 ++ p2 ++ p3 ++ p4 ++ p5 ++ p6 ++ p7 ++ p8).filter (fun x => x ≠ ""))
  if 999 < joined.length then jsSlice0 joined 999 else joined

/-- One label of `itemsToShortLabels` (part_006 lines 115-132), restricted
to object items.  A price key present on the item is kept even when 0; a
price taken from the `amount` alias falls through `|| null`. -/
def shortLabel (it : ItemRec) : String :=
  let nm := jsOrD (jsOrS it.name it.title) (jsOrS it.productId it.id) "item"
  let priceVal : Option Int :=
    match it.price with
    | some p => some p
    | none => match it.amount with
      | some a2 => if a2 = 0 then none else some a2
      | none => none
  let label1 := normalizeStr (some nm)
  let label2 := match sizeAlias it with
    | some v => label1 ++ " (Size: " ++ normalizeStr (some v) ++ ")"
    | none => label1
  let label3 := match priceVal with
    | some p => label2 ++ " - ₹" ++ toString p
    | none => label2
  jsSlice0 label3 9999

def itemsToShortLabels (items : List ItemRec) : List String :=
  items.map shortLabel

/-- The document payload written to the orders collection (part_006 lines
267-310). -/
structure Payload6 where
  order_id : String
  userId : String
  amount : Int
  amountPaise : Int
  currency : String
  razorpay_order_id : String
  items : List String
  items_json : String
  shipping : String
  shipping_json : String
  shipping_full_name : String
  shipping_phone : String
  shipping_line_1 : String
  shipping_city : String
  shipping_state : String
  shipping_postal_code : String
  shipping_country : String
  size : String
  payment_method : String
  status : String
  receipt : Option String
  verification_raw : String
deriving Repr, DecidableEq

structure Resp6 where
  success : Bool
  message : Option String := none
  errorStr : Option String := none
  payment_method : Option String := none
  order_id : Option String := none
  amount : Option Int := none
  currency : Option String := none
  razorpayOrder : Option RemoteOrder := none
  savedOrderDoc : Option (Nat × Payload6) := none
deriving Repr, DecidableEq

inductive Resp where
  | text (s0 : String)
  | json (payload : Resp6) (status : Nat)
deriving Repr, DecidableEq

structure Outcome where
  resp : Resp
  gatewayCalls : List GatewayReq
  store : List (Nat × Payload6)
  dbAction : Option DbAction
deriving Repr, DecidableEq

def respOrderId : Outcome → Option String
  | ⟨.json p _, _, _, _⟩ => p.order_id
  | ⟨.text _, _, _, _⟩ => none

/-- The savedOrderDoc carried by the response, if any. -/
def savedDocOf : Outcome → Option (Nat × Payload6)
  | ⟨.json p _, _, _, _⟩ => p.savedOrderDoc
  | ⟨.text _, _, _, _⟩ => none

/-- The handler of part_006 lines 134-356; parameters as in `Part007.run`. -/
def run (method : String) (parsed : Option OrderBody) (credsOk configured : Bool)
    (gateway : GatewayReq → Except String RemoteOrder) (dbErr : Option String)
    (freshId t r : Nat) (store0 : List (Nat × Payload6)) : Outcome :=
  if method = "POST" then
    let body := parsed.getD {}
    let pm := jsToLower (jsOrD body.paymentMethod body.payment_method "razorpay")
    if toNullable body.userId = none then
      ⟨.json { success := false,
               message := some "userId is required. Please login and send userId." } 400,
       [], store0, none⟩
    else if ¬ (pm = "cod" ∨ pm = "razorpay") then
      -- source text quotes the two method names in the message
      ⟨.json { success := false,
               message := some "paymentMethod must be cod or razorpay" } 400,
       [], store0, none⟩
    else
      let userId := body.userId.getD ""
      let amountOk : Bool := match body.amount with
        | none => false
        | some a => decide (0 < a)
      if pm = "razorpay" ∧ amountOk = false then
        ⟨.json { success := false,
                 message := some "Valid amount (in rupees) required for razorpay orders" } 400,
         [], store0, none⟩
      else
        let shippingArray := shippingArrayOf body.shipping
        if shippingArray = [] then
          ⟨.json { success := false,
                   message := some "shipping is required. Provide shipping object/array." } 400,
           [], store0, none⟩
        else
          let primaryShipping := primaryShippingOf shippingArray body.shippingPrimaryIndex
          let shipping_full_name := normalizeStr (jsOrS primaryShipping.fullName primaryShipping.full_name)
          let shipping_phone := normalizeStr primaryShipping.phone
          let shipping_line_1 := normalizeStr (jsOrS primaryShipping.line1 primaryShipping.line_1)
          let shipping_city := normalizeStr primaryShipping.city
          let shipping_state := normalizeStr primaryShipping.state
          let shipping_postal_code := normalizeStr (jsOrS primaryShipping.postalCode primaryShipping.postal_code)
          let shipping_country := (toNullable (some (normalizeStr primaryShipping.country))).getD "India"
          match primarySizeOf body.items with
          | none =>
            ⟨.json { success := false,
                     message := some "size is required (include size in items[0].size)." } 400,
             [], store0, none⟩
          | some primarySize =>
            let amountPaiseFromClient := jsRound ((body.amount.getD 0) * 100)
            let currency := body.currency.getD "INR"
            if pm = "razorpay" ∧ credsOk = false then
              ⟨.json { success := false,
                       message := some "Razorpay credentials not configured" } 500,
               [], store0, none⟩
            else
              let gwReq : GatewayReq :=
                ⟨amountPaiseFromClient, currency, "order_rcpt_" ++ toString t⟩
              let gwStep : Except String (Option RemoteOrder × String × Int) :=
                if pm = "razorpay" then
                  match gateway gwReq with
                  | .error e => .error e
                  | .ok o => .ok (some o, o.id, o.amount)
                else
                  .ok (none, "cod_" ++ toString t ++ "_" ++ toString r, amountPaiseFromClient)
              match gwStep with
              | .error e =>
                ⟨.json { success := false, errorStr := some e } 500, [gwReq], store0, none⟩
              | .ok (razorpayOrder, razorpay_order_id, amountPaise) =>
                let calls := if pm = "razorpay" then [gwReq] else []
                let payload : Payload6 :=
                  { order_id := razorpay_order_id
                    userId := userId
                    amount := amountPaise
                    amountPaise := amountPaise
                    currency := currency
                    razorpay_order_id := razorpay_order_id
                    items := itemsToShortLabels body.items
                    items_json := renderItems body.items
                    shipping := buildShippingShort primaryShipping
                    shipping_json := renderShipArr shippingArray
                    shipping_full_name := shipping_full_name
                    shipping_phone := shipping_phone
                    shipping_line_1 := shipping_line_1
                    shipping_city := shipping_city
                    shipping_state := shipping_state
                    shipping_postal_code := shipping_postal_code
                    shipping_country := shipping_country
                    size := primarySize
                    payment_method := pm
                    status := if pm = "cod" then "pending" else "created"
                    receipt := toNullable (razorpayOrder.map RemoteOrder.receipt)
                    verification_raw := Part007.verificationRaw razorpayOrder }
                if configured then
                  match dbErr with
                  | some e =>
                    ⟨.json { success := false, message := some "Failed saving order to DB",
                             errorStr := some e } 500, calls, store0, none⟩
                  | none =>
                    let up := upsertByOrderId Payload6.razorpay_order_id store0 freshId payload
                    let savedId := match up.2 with
                      | .created i => i
                      | .updated i => i
                    ⟨.json { success := true
                             payment_method := some pm
                             order_id := some razorpay_order_id
                             amount := some amountPaise
                             currency := some currency
                             razorpayOrder := razorpayOrder
                             savedOrderDoc := some (savedId, payload) } 200,
                     calls, up.1, some up.2⟩
                else
                  ⟨.json { success := true
                           payment_method := some pm
                           order_id := some razorpay_order_id
                           amount := some amountPaise
                           currency := some currency
                           razorpayOrder := razorpayOrder
                           savedOrderDoc := none } 200,
                   calls, store0, none⟩
  else if method = "GET" then
    ⟨.text "createOrder function is live", [], store0, none⟩
  else
    ⟨.json { success := false, message := some ("Method " ++ method ++ " not allowed") } 405,
     [], store0, none⟩

end Part006B

/-- The JSON request body destructured by the part_009 timeout variant, the
part_011 handler and the part_013 debug variant:
`const { userId, items = [], amount, currency = "INR" } = bodyData`
(part_011 additionally reads the `userID`/`user` aliases).  `amount` is
modelled as the integer the handlers obtain through `parseInt`. -/
structure SimpleBody where
  userId : Option String := none
  userID : Option String := none
  user : Option String := none
  items : List ItemRec := []
  amount : Option Int := none
  currency : Option String := none
deriving Repr, DecidableEq

namespace Part009B

/-
Embedding of the second handler in src/unnamed/part_009 ("createOrder.js -
with external-call timeout", lines 250-414): the Razorpay call is wrapped in
promiseWithTimeout with CREATE_TIMEOUT_MS, and the document write is
fire-and-forget.
-/

/-- part_009 line 344: `const CREATE_TIMEOUT_MS = 10000`. -/
def CREATE_TIMEOUT_MS : Nat := 10000

/-- The document written by the fire-and-forget `createDocument` call
(part_009 lines 379-399). -/
structure Doc9 where
  userId : String
  amount : Int
  amountPaise : Int
  currency : String
  razorpay_order_id : String
  razorpay_payment_id : Option String
  razorpay_signature : Option String
  status : String
  receipt : String
  items : List ItemRec
  items_json : String
  verification_raw : Option String
  createdAt : String
deriving Repr, DecidableEq

structure Resp9 where
  success : Bool
  message : Option String := none
  errorStr : Option String := none
  orderId : Option String := none
  amount : Option Int := none
  currency : Option String := none
deriving Repr, DecidableEq

inductive Resp where
  | text (s0 : String)
  | json (payload : Resp9) (status : Nat)
deriving Repr, DecidableEq

/-- Outcome of one invocation; `timeoutMs` records the timeout the gateway
call was wrapped in (when a call was made), `written` the documents that
reached the store. -/
structure Outcome where
  resp : Resp
  gatewayCalls : List GatewayReq
  written : List (String × Doc9)
  timeoutMs : Option Nat
deriving Repr, DecidableEq

def respStatus : Outcome → Option Nat
  | ⟨.json _ st, _, _, _⟩ => some st
  | ⟨.text _, _, _, _⟩ => none

/-- The handler of part_009 lines 268-414.  `gateway` yields `.error` both
for an upstream failure and for the promiseWithTimeout expiry; `dbErr` is
the outcome of the background write; `docId` the id from `ID.unique()`;
`nowIso` the `createdAt` timestamp. -/
def run (method : String) (parsed : Option SimpleBody)
    (gateway : GatewayReq → Except String RemoteOrder) (dbErr : Option String)
    (docId : String) (t : Nat) (nowIso : String) : Outcome :=
  if method = "POST" then
    let body := parsed.getD {}
    if toNullable body.userId = none ∨ body.amount = none then
      ⟨.json { success := false, message := some "userId and amount required" } 400,
       [], [], none⟩
    else
      let intAmount := body.amount.getD 0
      if intAmount ≤ 0 then
        ⟨.json { success := false, message := some "Amount must be a positive number" } 400,
         [], [], none⟩
      else
        let currency := body.currency.getD "INR"
        let gwReq : GatewayReq :=
          ⟨intAmount * 100, currency, "order_rcpt_" ++ toString t⟩
        match gateway gwReq with
        | .error _ =>
          ⟨.json { success := false,
                   message := some "Payment gateway unavailable. Please try again." } 503,
           [gwReq], [], some CREATE_TIMEOUT_MS⟩
        | .ok order =>
          let safeItems := body.items
          let doc : Doc9 :=
            { userId := body.userId.getD ""
              amount := intAmount
              amountPaise := order.amount
              currency := order.currency
              razorpay_order_id := order.id
              razorpay_payment_id := none
              razorpay_signature := none
              status := "unpaid"
              receipt := order.receipt
              items := safeItems
              items_json := renderItems safeItems
              verification_raw := none
              createdAt := nowIso }
          let written := match dbErr with
            | none => [(docId, doc)]
            | some _ => []
          ⟨.json { success := true, orderId := some order.id,
                   amount := some order.amount, currency := some order.currency } 200,
           [gwReq], written, some CREATE_TIMEOUT_MS⟩
  else if method = "GET" then
    ⟨.text "🚀 Razorpay Appwrite Function is live", [], [], none⟩
  else
    ⟨.json { success := false, message := some ("Method " ++ method ++ " not allowed") } 405,
     [], [], none⟩

end Part009B

namespace Part011

/-
Embedding of src/unnamed/part_011 ("createOrder.js (Appwrite Function)",
lines 1-163): awaited document write whose failure is reported inside a
success response via dbSaved/dbError.
-/

def MAX_LEN : Nat := 490

/-- One label for the Appwrite `items` String[] field (part_011 lines
88-101), restricted to object items. -/
def labelFor (idx : Nat) (it : ItemRec) : String :=
  let nm := (toNullable it.name).getD ("item_" ++ toString (idx + 1))
  let sz := match toNullable it.size with
    | some v => " (Size: " ++ v ++ ")"
    | none => ""
  let label := nm ++ sz
  if MAX_LEN < label.length then jsSlice0 label MAX_LEN ++ "…" else label

def itemsForDb (items : List ItemRec) : List String :=
  items.mapIdx labelFor

/-- `sizesForDb` (part_011 lines 104-106). -/
def sizesForDb (items : List ItemRec) : List String :=
  (items.map (fun it => toNullable it.size)).reduceOption

/-- The document written by `createDocument` (part_011 lines 118-137). -/
structure Doc11 where
  userId : String
  amount : Int
  amountPaise : Int
  currency : String
  razorpay_order_id : String
  razorpay_payment_id : Option String
  razorpay_signature : Option String
  status : String
  receipt : String
  items : List String
  size : List String
  items_json : String
deriving Repr, DecidableEq

structure Resp11 where
  success : Bool
  message : Option String := none
  errorStr : Option String := none
  orderId : Option String := none
  amount : Option Int := none
  currency : Option String := none
  dbSaved : Option Bool := none
  dbError : Option String := none
  dbDocId : Option String := none
deriving Repr, DecidableEq

inductive Resp where
  | text (s0 : String)
  | json (payload : Resp11) (status : Nat)
deriving Repr, DecidableEq

structure Outcome where
  resp : Resp
  gatewayCalls : List GatewayReq
  written : List (String × Doc11)
deriving Repr, DecidableEq

/-- The handler of part_011 lines 5-163.  The resolved user id chain
`userId || userID || (user && user.id) || user` is modelled for string
`user` values. -/
def run (method : String) (parsed : Option SimpleBody)
    (gateway : GatewayReq → Except String RemoteOrder) (dbErr : Option String)
    (docId : String) (t : Nat) : Outcome :=
  if method = "POST" then
    let body := parsed.getD {}
    let resolvedUserId := toNullable (jsOrS body.userId (jsOrS body.userID body.user))
    if resolvedUserId = none ∨ body.amount = none ∨ body.amount = some 0 then
      ⟨.json { success := false, message := some "userId and amount required" } 400, [], []⟩
    else
      let intAmount := body.amount.getD 0
      if intAmount ≤ 0 then
        ⟨.json { success := false, message := some "Amount must be a positive number" } 400,
         [], []⟩
      else
        let currency := body.currency.getD "INR"
        let gwReq : GatewayReq :=
          ⟨intAmount * 100, currency, "order_rcpt_" ++ toString t⟩
        match gateway gwReq with
        | .error e =>
          ⟨.json { success := false, errorStr := some e } 500, [gwReq], []⟩
        | .ok order =>
          let doc : Doc11 :=
            { userId := resolvedUserId.getD ""
              amount := intAmount
              amountPaise := order.amount
              currency := order.currency
              razorpay_order_id := order.id
              razorpay_payment_id := none
              razorpay_signature := none
              status := "unpaid"
              receipt := order.receipt
              items := itemsForDb body.items
              size := sizesForDb body.items
              items_json := renderItems body.items }
          match dbErr with
          | none =>
            ⟨.json { success := true, orderId := some order.id, amount := some order.amount,
                     currency := some order.currency, dbSaved := some true,
                     dbDocId := some docId } 200,
             [gwReq], [(docId, doc)]⟩
          | some e =>
            ⟨.json { success := true, orderId := some order.id, amount := some order.amount,
                     currency := some order.currency, dbSaved := some false,
                     dbError := some e } 200,
             [gwReq], []⟩
  else if method = "GET" then
    ⟨.text "🚀 Razorpay Appwrite Function is live", [], []⟩
  else
    ⟨.json { success := false, message := some ("Method " ++ method ++ " not allowed") } 405,
     [], []⟩

end Part011

namespace Part013A

/-
Embedding of the first handler in src/unnamed/part_013
("createOrder_debug_noCreatedAt.js", lines 1-164): the document write is
awaited, and its failure is reported as a 500 failure response.
-/

/-- The document written by `createDocument` (part_013 lines 120-139). -/
structure Doc13 where
  userId : String
  amount : Int
  amountPaise : Int
  currency : String
  razorpay_order_id : String
  razorpay_payment_id : Option String
  razorpay_signature : Option String
  status : String
  receipt : String
  items : List ItemRec
  items_json : String
  verification_raw : Option String
deriving Repr, DecidableEq

structure Resp13 where
  success : Bool
  message : Option String := none
  errorStr : Option String := none
  orderId : Option String := none
  amount : Option Int := none
  currency : Option String := none
  orderInfo : Option (String × Int × String) := none
  dbError : Option String := none
  savedDocumentId : Option String := none
deriving Repr, DecidableEq

inductive Resp where
  | text (s0 : String)
  | json (payload : Resp13) (status : Nat)
deriving Repr, DecidableEq

structure Outcome where
  resp : Resp
  gatewayCalls : List GatewayReq
  written : List (String × Doc13)
deriving Repr, DecidableEq

def respSuccess : Outcome → Option Bool
  | ⟨.json p _, _, _⟩ => some p.success
  | ⟨.text _, _, _⟩ => none

def respStatus : Outcome → Option Nat
  | ⟨.json _ st, _, _⟩ => some st
  | ⟨.text _, _, _⟩ => none

/-- The handler of part_013 lines 12-164.  `gateway` yields `.error` both
for an upstream failure and for the 10 s promiseWithTimeout expiry. -/
def run (method : String) (parsed : Option SimpleBody)
    (gateway : GatewayReq → Except String RemoteOrder) (dbErr : Option String)
    (docId : String) (t : Nat) : Outcome :=
  if method = "POST" then
    let body := parsed.getD {}
    if toNullable body.userId = none ∨ body.amount = none then
      ⟨.json { success := false, message := some "userId and amount required" } 400, [], []⟩
    else
      let intAmount := body.amount.getD 0
      if intAmount ≤ 0 then
        ⟨.json { success := false, message := some "Amount must be a positive number" } 400,
         [], []⟩
      else
        let currency := body.currency.getD "INR"
        let gwReq : GatewayReq :=
          ⟨intAmount * 100, currency, "order_rcpt_" ++ toString t⟩
        match gateway gwReq with
        | .error _ =>
          ⟨.json { success := false,
                   message := some "Payment gateway unavailable. Try again." } 503,
           [gwReq], []⟩
        | .ok order =>
          let safeItems := body.items
          let doc : Doc13 :=
            { userId := body.userId.getD ""
              amount := intAmount
              amountPaise := order.amount
              currency := order.currency
              razorpay_order_id := order.id
              razorpay_payment_id := none
              razorpay_signature := none
              status := "unpaid"
              receipt := order.receipt
              items := safeItems
              items_json := renderItems safeItems
              verification_raw := none }
          match dbErr with
          | none =>
            ⟨.json { success := true, orderId := some order.id, amount := some order.amount,
                     currency := some order.currency, savedDocumentId := some docId } 200,
             [gwReq], [(docId, doc)]⟩
          | some e =>
            ⟨.json { success := false,
                     message := some "Order created in Razorpay but failed to save in DB",
                     orderInfo := some (order.id, order.amount, order.currency),
                     dbError := some e } 500,
             [gwReq], []⟩
  else if method = "GET" then
    ⟨.text "🚀 Razorpay Appwrite Function is live (DEBUG)", [], []⟩
  else
    ⟨.json { success := false, message := some ("Method " ++ method ++ " not allowed") } 405,
     [], []⟩

end Part013A

/-- Modelled from the spec (section 4.3, "Numeric sanitization" and the
testable property on postal codes): a store field typed as integer is
coerced by stripping non-digit characters, and omitted when nothing
remains.  No handler under src/ implements this; the definition follows the
spec's words and is used only to compare the claimed sanitisation with the
stored value. -/
def specPostalSanitize (str : String) : Option Int :=
  let digits : List Char := str.data.filter Char.isDigit
  if digits = [] then none
  else some (Int.ofNat (digits.foldl (fun n c => n * 10 + (c.toNat - 48)) 0))

/-- The spec's synthesized-order-id pattern cod_<digits>_<digits>. -/
def codPattern (str : String) : Prop :=
  ∃ a b : Nat, str = "cod_" ++ toString a ++ "_" ++ toString b

/-
Helper lemmas.
-/

theorem jsSlice0_length (str : String) (n : Nat) :
    (jsSlice0 str n).length = min n str.length := by
  show (str.data.take n).length = min n str.data.length
  exact List.length_take n str.data

theorem toNullable_some_of_ne {u : String} (hu : u ≠ "") :
    toNullable (some u) = some u := by
  simp [toNullable, hu]

theorem toNullable_some_ne_none {u : String} (hu : u ≠ "") :
    toNullable (some u) ≠ none := by
  simp [toNullable_some_of_ne hu]

/-- An upsert whose key hits nothing in the store appends a fresh document. -/
theorem upsertByOrderId_fresh {α : Type} (key : α → String)
    (store : List (Nat × α)) (f : Nat) (p : α)
    (h : ∀ d ∈ store, key d.2 ≠ key p) :
    upsertByOrderId key store f p = (store ++ [(f, p)], .created f) := by
  unfold upsertByOrderId findByKey
  rw [List.find?_eq_none.mpr]
  intro d hd
  simpa using h d hd

/-- An upsert whose key hits exactly the last (fresh) document updates it in
place. -/
theorem upsertByOrderId_hit {α : Type} (key : α → String)
    (store : List (Nat × α)) (f f2 : Nat) (p1 p2 : α)
    (hkey : key p1 = key p2)
    (h : ∀ d ∈ store, key d.2 ≠ key p2)
    (hf : ∀ d ∈ store, d.1 ≠ f) :
    upsertByOrderId key (store ++ [(f, p1)]) f2 p2 = (store ++ [(f, p2)], .updated f) := by
  unfold upsertByOrderId findByKey
  rw [List.find?_append, List.find?_eq_none.mpr (by intro d hd; simpa using h d hd)]
  simp only [Option.none_or]
  rw [show List.find? (fun d => decide (key d.2 = key p2)) [(f, p1)] = some (f, p1) by
    simp [List.find?, hkey]]
  dsimp only
  unfold updateAt
  rw [List.map_append]
  refine Prod.ext ?_ rfl
  dsimp only
  congr 1
  · conv_rhs => rw [show store = store.map id from (List.map_id store).symm]
    refine List.map_congr_left ?_
    intro d hd
    simp [hf d hd]
  · simp

theorem countKey_append_one (store : List (Nat × Part007.Payload7)) (f : Nat)
    (p : Part007.Payload7) (k : String) (hp : p.razorpay_order_id = k) :
    Part007.countKey (store ++ [(f, p)]) k = Part007.countKey store k + 1 := by
  unfold Part007.countKey
  rw [List.filter_append]
  simp [hp]

/-
Claim theorems.
-/

/-- Claim C8: for every request body from which no JSON object can be
extracted (parseJSON yields no object and the handler falls back to the
empty object), src/index.js responds with a terminal 400 failure
("Valid amount required") and makes zero Payment Gateway calls and zero
Document Store writes. -/
theorem C8_malformed_payload_terminal_400
    (gateway : GatewayReq → Except String RemoteOrder)
    (dbErr1 dbErr2 : Option String) (docId1 docId2 : String) (t r : Nat)
    (store0 : List (String × IndexJs.OrderDoc)) :
    IndexJs.run true "POST" none gateway dbErr1 dbErr2 docId1 docId2 t r store0 =
      ⟨.json { success := false, message := some "Valid amount required" } 400,
       [], store0⟩ := rfl

/-- Claim C1 counterexample: in src/index.js the stored `amountPaise` comes
from `Math.round(clientAmount * 100)`, not from the gateway response.  With
client amount 100 and a gateway order whose authoritative amount is 10001
paise, the persisted document carries 10000 while only the response carries
the gateway's 10001. -/
theorem C1_counterexample :
    ((IndexJs.run true "POST" (some { amount := some 100, userId := some "u1" })
        (fun _ => .ok ⟨"order_x", 10001, "INR", "rcpt_x"⟩)
        none none "D1" "D2" 5 7 []).store.map (fun d => d.2.amountPaise)) = [10000] ∧
    (10000 : Int) ≠ 10001 ∧
    IndexJs.respRazorpayAmount
      (IndexJs.run true "POST" (some { amount := some 100, userId := some "u1" })
        (fun _ => .ok ⟨"order_x", 10001, "INR", "rcpt_x"⟩)
        none none "D1" "D2" 5 7 []) = some 10001 := by
  refine ⟨by norm_num [IndexJs.run, jsRound], by norm_num,
    by norm_num [IndexJs.run, IndexJs.respRazorpayAmount, jsRound]⟩

/-- Claim C4 counterexample: src/index.js performs no customerId (userId)
validation.  A request lacking userId but carrying a valid amount reaches
the payment gateway (one call) and the document store (one write), instead
of the claimed 400 with zero calls. -/
theorem C4_counterexample :
    ((IndexJs.run true "POST" (some { amount := some 100 })
        (fun _ => .ok ⟨"order_y", 10000, "INR", "rcpt_y"⟩)
        none none "D1" "D2" 5 7 []).gatewayCalls.length = 1) ∧
    ((IndexJs.run true "POST" (some { amount := some 100 })
        (fun _ => .ok ⟨"order_y", 10000, "INR", "rcpt_y"⟩)
        none none "D1" "D2" 5 7 []).store.length = 1) ∧
    IndexJs.respStatus
      (IndexJs.run true "POST" (some { amount := some 100 })
        (fun _ => .ok ⟨"order_y", 10000, "INR", "rcpt_y"⟩)
        none none "D1" "D2" 5 7 []) = some 201 := by
  refine ⟨by norm_num [IndexJs.run, jsRound], by norm_num [IndexJs.run, jsRound],
    by norm_num [IndexJs.run, IndexJs.respStatus, jsRound]⟩

/-- Claim C5 counterexample: in src/index.js the `razorpay.orders.create`
call is not wrapped in any timeout, and an upstream failure surfaces
through the catch-all as a generic 500, not as the claimed retryable
503 GatewayUnavailable response (the store is still untouched). -/
theorem C5_counterexample :
    IndexJs.run true "POST" (some { amount := some 100, userId := some "u1" })
        (fun _ => .error "connection timed out") none none "D1" "D2" 5 7 [] =
      ⟨.json { success := false, errorField := some "connection timed out" } 500,
       [⟨10000, "INR", "order_rcpt_5_7"⟩], []⟩ ∧
    (500 : Nat) ≠ 503 := by
  refine ⟨?_, by norm_num⟩
  norm_num [IndexJs.run, jsRound]
  decide

/-- Claim C9 counterexample: no handler strips non-digits from the postal
code.  src/index.js stores `shipping.postal_code || shipping.zip || null`
verbatim: input "N/A" is stored as the string "N/A" (not omitted, as the
claim requires), and input "560 0 34" is stored as the string "560 0 34"
rather than the integer 560034 the claimed sanitisation would produce. -/
theorem C9_counterexample :
    ((IndexJs.run true "POST"
        (some { amount := some 100
                userId := some "u1"
                shipping := some { postal_code := some "N/A" } })
        (fun _ => .ok ⟨"order_z", 10000, "INR", "rcpt_z"⟩)
        none none "D1" "D2" 5 7 []).store.map (fun d => d.2.shipping_postal_code))
      = [some "N/A"] ∧
    (some "N/A" : Option String) ≠ none ∧
    specPostalSanitize "N/A" = none ∧
    ((IndexJs.run true "POST"
        (some { amount := some 100
                userId := some "u1"
                shipping := some { postal_code := some "560 0 34" } })
        (fun _ => .ok ⟨"order_z", 10000, "INR", "rcpt_z"⟩)
        none none "D1" "D2" 5 7 []).store.map (fun d => d.2.shipping_postal_code))
      = [some "560 0 34"] ∧
    specPostalSanitize "560 0 34" = some 560034 := by
  refine ⟨?_, by decide, by decide, ?_, by decide⟩
  · norm_num [IndexJs.run, jsRound]
    decide
  · norm_num [IndexJs.run, jsRound]
    decide

set_option maxRecDepth 10000 in
/-- Claim C6 counterexample: in part_005 the configured per-label limit is
MAX_LABEL_LEN = 490, but an over-long label is truncated to 490 characters
and then a one-character ellipsis is appended, so the stored summary string
has 491 characters and exceeds the configured limit. -/
theorem C6_counterexample :
    ((Part005.itemsForDb
        [{ name := some (String.mk (List.replicate 500 'a')) }]).map String.length)
      = [491] ∧
    Part005.MAX_LABEL_LEN = 490 ∧ 490 < 491 := by
  refine ⟨by decide, by decide, by decide⟩

/-- Claim C6 (amended): src/index.js truncates an over-long serialized
summary to exactly 999 characters with no marker appended, while part_005
truncates each over-long item label to the first 490 characters plus a
one-character ellipsis marker, yielding exactly 491 characters; in both
handlers the truncated summary is stored, never dropped. -/
theorem C6_truncation_behavior :
    (∀ s0 : String, 999 < s0.length →
      (IndexJs.truncate999 s0).length = 999 ∧
      IndexJs.truncate999 s0 = jsSlice0 s0 999) ∧
    (∀ (idx : Nat) (it : ItemRec), 490 < (Part005.rawLabel idx it).length →
      Part005.clip (Part005.rawLabel idx it)
        = jsSlice0 (Part005.rawLabel idx it) 490 ++ "…" ∧
      (Part005.clip (Part005.rawLabel idx it)).length = 491) := by
  constructor
  · intro s0 h
    unfold IndexJs.truncate999
    rw [if_pos h]
    refine ⟨?_, rfl⟩
    rw [jsSlice0_length]
    exact min_eq_left h.le
  · intro idx it h
    unfold Part005.clip
    rw [if_pos (show Part005.MAX_LABEL_LEN < (Part005.rawLabel idx it).length from h)]
    refine ⟨rfl, ?_⟩
    rw [String.length_append, jsSlice0_length]
    have hmin : min Part005.MAX_LABEL_LEN (Part005.rawLabel idx it).length = 490 :=
      min_eq_left (Nat.le_of_lt h)
    rw [hmin, show ("…" : String).length = 1 from rfl]

set_option maxRecDepth 10000 in
/-- Witness for C6_truncation_behavior at a 1000-character summary and a
500-character item name. -/
theorem C6_truncation_behavior_witness :
    (999 < (String.mk (List.replicate 1000 'b')).length ∧
      (IndexJs.truncate999 (String.mk (List.replicate 1000 'b'))).length = 999) ∧
    (490 < (Part005.rawLabel 0 { name := some (String.mk (List.replicate 500 'a')) }).length ∧
      (Part005.clip (Part005.rawLabel 0
        { name := some (String.mk (List.replicate 500 'a')) })).length = 491) :=
  ⟨⟨by decide, (C6_truncation_behavior.1 (String.mk (List.replicate 1000 'b')) (by decide)).1⟩,
   ⟨by decide, (C6_truncation_behavior.2 0
      { name := some (String.mk (List.replicate 500 'a')) } (by decide)).2⟩⟩

/-- Claim C10: when the primary document insert of src/index.js fails, a
second insert is attempted under the second freshly generated document id,
with the `items` attribute removed and the summary carried under
`items_summary`; when this fallback succeeds the caller receives HTTP 201
with success true, a warning, and the primary error attached. -/
theorem C10_fallback_insert (b : IndexJs.Body) (amt : ℚ) (g : RemoteOrder)
    (e1 : String) (docId1 docId2 : String) (t r : Nat)
    (store0 : List (String × IndexJs.OrderDoc))
    (hamt : b.amount = some amt) (ha : 0 < amt) :
    ∃ doc : IndexJs.OrderDoc,
      IndexJs.run true "POST" (some b) (fun _ => .ok g) (some e1) none
          docId1 docId2 t r store0 =
        ⟨.json { success := true
                 razorpayOrderId := some g.id
                 razorpayAmount := some g.amount
                 razorpayCurrency := some g.currency
                 razorpayReceipt := some g.receipt
                 documentId := some docId2
                 used := some "fallback_items_summary"
                 warning := some "Primary create failed; fallback with items_summary succeeded. Consider updating collection schema to accept items as text or rename attribute."
                 primaryError := some e1 } 201,
         [⟨jsRound (amt * 100), b.currency.getD "INR",
           "order_rcpt_" ++ toString t ++ "_" ++ toString r⟩],
         store0 ++ [(docId2, doc)]⟩ ∧
      doc.items = none ∧
      doc.items_summary = some (IndexJs.items_summary_of (b.items.getD [])) ∧
      doc.razorpay_order_id = g.id := by
  unfold IndexJs.run
  simp only [Option.getD_some]
  rw [hamt]
  simp only [if_neg (not_le.mpr ha)]
  exact ⟨_, rfl, rfl, rfl, rfl⟩

/-- Documents with a given key are absent from a store in which no entry
carries that key. -/
theorem countKey7_zero_of (store : List (Nat × Part007.Payload7)) (k : String)
    (h : ∀ d ∈ store, d.2.razorpay_order_id ≠ k) :
    Part007.countKey store k = 0 := by
  unfold Part007.countKey
  rw [List.length_eq_zero, List.filter_eq_nil_iff]
  intro d hd
  simpa using h d hd

/-- Reduction of a valid razorpay-path part_007 request: the handler calls
the gateway once and performs the keyed upsert with a payload whose natural
key and amount come from the gateway order. -/
theorem run7_valid_projections (b : OrderBody) (g : RemoteOrder) (a : ℚ) (sz : String)
    (f t r : Nat) (store0 : List (Nat × Part007.Payload7))
    (hpm : jsToLower (jsOrD b.paymentMethod b.payment_method "razorpay") = "razorpay")
    (hu : toNullable b.userId ≠ none)
    (hship : shippingArrayOf b.shipping ≠ [])
    (hsz : primarySizeOf b.items = some sz)
    (hamt : b.amount = some a) (ha : 0 < a) :
    ∃ p : Part007.Payload7,
      (Part007.run "POST" (some b) true true (fun _ => .ok g) none f t r store0).store
        = (upsertByOrderId Part007.Payload7.razorpay_order_id store0 f p).1 ∧
      (Part007.run "POST" (some b) true true (fun _ => .ok g) none f t r store0).dbAction
        = some (upsertByOrderId Part007.Payload7.razorpay_order_id store0 f p).2 ∧
      p.razorpay_order_id = g.id ∧ p.amount = g.amount ∧
      (Part007.run "POST" (some b) true true (fun _ => .ok g) none f t r store0).gatewayCalls
        = [⟨jsRound (a * 100), b.currency.getD "INR", "order_rcpt_" ++ toString t⟩] ∧
      Part007.respAmount (Part007.run "POST" (some b) true true (fun _ => .ok g) none f t r store0)
        = some g.amount ∧
      Part007.respOrderId (Part007.run "POST" (some b) true true (fun _ => .ok g) none f t r store0)
        = some g.id ∧
      Part007.savedDocOf (Part007.run "POST" (some b) true true (fun _ => .ok g) none f t r store0)
        = some ((match (upsertByOrderId Part007.Payload7.razorpay_order_id store0 f p).2 with
                 | DbAction.created i => i
                 | DbAction.updated i => i), p) := by
  unfold Part007.run
  simp only [Option.getD_some]
  rw [if_pos trivial, if_neg hu, if_neg hship, hsz]
  simp only [hpm, hamt]
  rw [if_neg (by simp [ha])]
  rw [if_neg (by simp)]
  simp only [if_true, Option.getD_some]
  refine ⟨_, rfl, ?_, ?_, ?_, ?_, ?_, ?_, ?_⟩ <;> try rfl
  all_goals trivial

/-- Claim C2 counterexample: src/index.js never looks the natural key up
before writing — each run inserts a fresh document.  Submitting the same
gateway order id twice (a replay in which the gateway returns the same
order) leaves two OrderRecords with that key in the store, not one. -/
theorem C2_counterexample :
    IndexJs.countKey
      (IndexJs.run true "POST" (some { amount := some 100, userId := some "u1" })
        (fun _ => .ok ⟨"order_dup", 10000, "INR", "r1"⟩) none none "D3" "D4" 6 8
        ((IndexJs.run true "POST" (some { amount := some 100, userId := some "u1" })
          (fun _ => .ok ⟨"order_dup", 10000, "INR", "r1"⟩) none none "D1" "D2" 5 7
          []).store)).store
      "order_dup" = 2 ∧ (2 : Nat) ≠ 1 := by
  refine ⟨?_, by norm_num⟩
  norm_num [IndexJs.run, jsRound, IndexJs.countKey]

/-- Claim C2 (amended): the upsert of part_007 is idempotent per natural
key — with a store holding no record for the key, the first submission
inserts one record and a second submission of the same key updates that
record in place, leaving exactly one OrderRecord for the key.  src/index.js
performs no lookup and duplicates instead (see the counterexample). -/
theorem C2_upsert_idempotent (b : OrderBody) (g : RemoteOrder) (a : ℚ) (sz : String)
    (f1 f2 t1 t2 r1 r2 : Nat) (store0 : List (Nat × Part007.Payload7))
    (hpm : jsToLower (jsOrD b.paymentMethod b.payment_method "razorpay") = "razorpay")
    (hu : toNullable b.userId ≠ none)
    (hship : shippingArrayOf b.shipping ≠ [])
    (hsz : primarySizeOf b.items = some sz)
    (hamt : b.amount = some a) (ha : 0 < a)
    (h0 : ∀ d ∈ store0, d.2.razorpay_order_id ≠ g.id)
    (hf1 : ∀ d ∈ store0, d.1 ≠ f1) :
    (Part007.run "POST" (some b) true true (fun _ => .ok g) none f1 t1 r1 store0).dbAction
      = some (.created f1) ∧
    (Part007.run "POST" (some b) true true (fun _ => .ok g) none f2 t2 r2
      (Part007.run "POST" (some b) true true (fun _ => .ok g) none f1 t1 r1 store0).store).dbAction
      = some (.updated f1) ∧
    Part007.countKey
      (Part007.run "POST" (some b) true true (fun _ => .ok g) none f2 t2 r2
        (Part007.run "POST" (some b) true true (fun _ => .ok g) none f1 t1 r1 store0).store).store
      g.id = 1 := by
  obtain ⟨p1, hst1, hact1, hk1, _, _, _, _, _⟩ :=
    run7_valid_projections b g a sz f1 t1 r1 store0 hpm hu hship hsz hamt ha
  have hfresh1 : ∀ d ∈ store0, Part007.Payload7.razorpay_order_id d.2 ≠
      Part007.Payload7.razorpay_order_id p1 := by
    intro d hd
    rw [hk1]
    exact h0 d hd
  have hup1 := upsertByOrderId_fresh Part007.Payload7.razorpay_order_id store0 f1 p1 hfresh1
  obtain ⟨p2, hst2, hact2, hk2, _, _, _, _, _⟩ :=
    run7_valid_projections b g a sz f2 t2 r2
      ((Part007.run "POST" (some b) true true (fun _ => .ok g) none f1 t1 r1 store0).store)
      hpm hu hship hsz hamt ha
  rw [hst1, hup1] at hst2 hact2 ⊢
  have hup2 := upsertByOrderId_hit Part007.Payload7.razorpay_order_id store0 f1 f2 p1 p2
    (by rw [hk1, hk2])
    (by intro d hd; rw [hk2]; exact h0 d hd) hf1
  refine ⟨by rw [hact1, hup1], by rw [hact2, hup2], ?_⟩
  rw [hst2, hup2]
  have hzero := countKey7_zero_of store0 g.id h0
  rw [countKey_append_one store0 f1 p2 g.id hk2, hzero]

/-- Witness for C2_upsert_idempotent. -/
theorem C2_upsert_idempotent_witness :
    ((0 : ℚ) < 100 ∧
      primarySizeOf [{ size := some "M" }] = some "M") ∧
    (Part007.run "POST"
        (some { amount := some 100, userId := some "u1", items := [{ size := some "M" }],
                shipping := ShipVal.obj { city := some "Pune" } })
        true true (fun _ => .ok ⟨"order_dup", 10000, "INR", "r1"⟩) none 11 5 7 []).dbAction
      = some (.created 11) ∧
    (Part007.run "POST"
        (some { amount := some 100, userId := some "u1", items := [{ size := some "M" }],
                shipping := ShipVal.obj { city := some "Pune" } })
        true true (fun _ => .ok ⟨"order_dup", 10000, "INR", "r1"⟩) none 12 6 8
      (Part007.run "POST"
        (some { amount := some 100, userId := some "u1", items := [{ size := some "M" }],
                shipping := ShipVal.obj { city := some "Pune" } })
        true true (fun _ => .ok ⟨"order_dup", 10000, "INR", "r1"⟩) none 11 5 7 []).store).dbAction
      = some (.updated 11) ∧
    Part007.countKey
      (Part007.run "POST"
        (some { amount := some 100, userId := some "u1", items := [{ size := some "M" }],
                shipping := ShipVal.obj { city := some "Pune" } })
        true true (fun _ => .ok ⟨"order_dup", 10000, "INR", "r1"⟩) none 12 6 8
      (Part007.run "POST"
        (some { amount := some 100, userId := some "u1", items := [{ size := some "M" }],
                shipping := ShipVal.obj { city := some "Pune" } })
        true true (fun _ => .ok ⟨"order_dup", 10000, "INR", "r1"⟩) none 11 5 7 []).store).store
      "order_dup" = 1 :=
  ⟨⟨by norm_num, by decide⟩,
   C2_upsert_idempotent
     { amount := some 100, userId := some "u1", items := [{ size := some "M" }],
       shipping := ShipVal.obj { city := some "Pune" } }
     ⟨"order_dup", 10000, "INR", "r1"⟩ 100 "M" 11 12 5 6 7 8 []
     (by decide) (by decide) (by decide) (by decide) rfl (by norm_num)
     (by intro d hd; cases hd) (by intro d hd; cases hd)⟩

/-- Claim C1 (amended): in part_007 the persisted amount and the response
amount are the gateway's returned amount (the client value is overwritten
by `amountPaise = razorpayOrder.amount`), even when it differs from
round(clientAmount*100); in src/index.js only the response carries the
gateway amount while the stored amountPaise remains
round(clientAmount*100) (see the counterexample). -/
theorem C1_gateway_amount_authoritative (b : OrderBody) (g : RemoteOrder) (a : ℚ)
    (sz : String) (f t r : Nat) (store0 : List (Nat × Part007.Payload7))
    (hpm : jsToLower (jsOrD b.paymentMethod b.payment_method "razorpay") = "razorpay")
    (hu : toNullable b.userId ≠ none)
    (hship : shippingArrayOf b.shipping ≠ [])
    (hsz : primarySizeOf b.items = some sz)
    (hamt : b.amount = some a) (ha : 0 < a) :
    Part007.respAmount
        (Part007.run "POST" (some b) true true (fun _ => .ok g) none f t r store0)
      = some g.amount ∧
    (∀ (i : Nat) (p : Part007.Payload7),
      Part007.savedDocOf
          (Part007.run "POST" (some b) true true (fun _ => .ok g) none f t r store0)
        = some (i, p) →
      p.amount = g.amount ∧ p.razorpay_order_id = g.id) ∧
    (∀ (ib : IndexJs.Body) (docId1 docId2 : String)
        (istore : List (String × IndexJs.OrderDoc)),
      ib.amount = some a →
      ∃ doc : IndexJs.OrderDoc,
        (IndexJs.run true "POST" (some ib) (fun _ => .ok g) none none
            docId1 docId2 t r istore).store = istore ++ [(docId1, doc)] ∧
        doc.amountPaise = jsRound (a * 100) ∧
        IndexJs.respRazorpayAmount
          (IndexJs.run true "POST" (some ib) (fun _ => .ok g) none none
            docId1 docId2 t r istore) = some g.amount) := by
  obtain ⟨p, hst, hact, hk, ham, hcalls, hra, hro, hsd⟩ :=
    run7_valid_projections b g a sz f t r store0 hpm hu hship hsz hamt ha
  refine ⟨hra, ?_, ?_⟩
  · intro i q hq
    rw [hsd] at hq
    have hpq : p = q := congrArg Prod.snd (Option.some_injective _ hq)
    rw [← hpq]
    exact ⟨ham, hk⟩
  · intro ib docId1 docId2 istore hamt2
    unfold IndexJs.run
    simp only [Option.getD_some]
    rw [hamt2]
    simp only [if_neg (not_le.mpr ha)]
    exact ⟨_, rfl, rfl, rfl⟩

/-- Witness for C1_gateway_amount_authoritative, with client amount 100
(10000 paise) and a gateway order of 10001 paise. -/
theorem C1_gateway_amount_authoritative_witness :
    (0 : ℚ) < 100 ∧
    Part007.respAmount
        (Part007.run "POST"
          (some { amount := some 100, userId := some "u1", items := [{ size := some "M" }],
                  shipping := ShipVal.obj { city := some "Pune" } })
          true true (fun _ => .ok ⟨"order_x", 10001, "INR", "rcpt_x"⟩) none 11 5 7 [])
      = some 10001 ∧
    (∃ doc : IndexJs.OrderDoc,
      (IndexJs.run true "POST" (some { amount := some 100, userId := some "u1" })
          (fun _ => .ok ⟨"order_x", 10001, "INR", "rcpt_x"⟩) none none
          "D1" "D2" 5 7 []).store = [] ++ [("D1", doc)] ∧
      doc.amountPaise = jsRound (100 * 100) ∧
      IndexJs.respRazorpayAmount
        (IndexJs.run true "POST" (some { amount := some 100, userId := some "u1" })
          (fun _ => .ok ⟨"order_x", 10001, "INR", "rcpt_x"⟩) none none
          "D1" "D2" 5 7 []) = some 10001) :=
  ⟨by norm_num,
   (C1_gateway_amount_authoritative
     { amount := some 100, userId := some "u1", items := [{ size := some "M" }],
       shipping := ShipVal.obj { city := some "Pune" } }
     ⟨"order_x", 10001, "INR", "rcpt_x"⟩ 100 "M" 11 5 7 []
     (by decide) (by decide) (by decide) (by decide) rfl (by norm_num)).1,
   (C1_gateway_amount_authoritative
     { amount := some 100, userId := some "u1", items := [{ size := some "M" }],
       shipping := ShipVal.obj { city := some "Pune" } }
     ⟨"order_x", 10001, "INR", "rcpt_x"⟩ 100 "M" 11 5 7 []
     (by decide) (by decide) (by decide) (by decide) rfl (by norm_num)).2.2
     { amount := some 100, userId := some "u1" } "D1" "D2" [] rfl⟩

/-- Reduction of a valid COD-path part_006 request: no gateway call is
made, the natural key is the locally synthesized cod token, and the upsert
runs with a payload whose status is "pending". -/
theorem run6_cod_projections (b : OrderBody) (sz : String) (credsOk : Bool)
    (gateway : GatewayReq → Except String RemoteOrder)
    (f t r : Nat) (store0 : List (Nat × Part006B.Payload6))
    (hpm : jsToLower (jsOrD b.paymentMethod b.payment_method "razorpay") = "cod")
    (hu : toNullable b.userId ≠ none)
    (hship : shippingArrayOf b.shipping ≠ [])
    (hsz : primarySizeOf b.items = some sz) :
    ∃ p : Part006B.Payload6,
      (Part006B.run "POST" (some b) credsOk true gateway none f t r store0).store
        = (upsertByOrderId Part006B.Payload6.razorpay_order_id store0 f p).1 ∧
      (Part006B.run "POST" (some b) credsOk true gateway none f t r store0).dbAction
        = some (upsertByOrderId Part006B.Payload6.razorpay_order_id store0 f p).2 ∧
      p.razorpay_order_id = "cod_" ++ toString t ++ "_" ++ toString r ∧
      p.status = "pending" ∧
      (Part006B.run "POST" (some b) credsOk true gateway none f t r store0).gatewayCalls
        = [] ∧
      Part006B.respOrderId
          (Part006B.run "POST" (some b) credsOk true gateway none f t r store0)
        = some ("cod_" ++ toString t ++ "_" ++ toString r) := by
  unfold Part006B.run
  simp only [Option.getD_some]
  rw [if_pos trivial, if_neg hu]
  simp only [hpm]
  rw [if_neg hship, hsz]
  simp only [if_true, Option.getD_some]
  refine ⟨_, rfl, ?_, ?_, ?_, ?_, ?_⟩ <;> try rfl

/-- Claim C7: a COD request (no amount) through part_006 makes no gateway
call, synthesizes the order id cod_<Date.now()>_<random> matching the
cod_<digits>_<digits> pattern, and persists the record with status
"pending". -/
theorem C7_cod_flow (b : OrderBody) (sz : String) (credsOk : Bool)
    (gateway : GatewayReq → Except String RemoteOrder)
    (f t r : Nat) (store0 : List (Nat × Part006B.Payload6))
    (hpm : jsToLower (jsOrD b.paymentMethod b.payment_method "razorpay") = "cod")
    (hu : toNullable b.userId ≠ none)
    (hship : shippingArrayOf b.shipping ≠ [])
    (hsz : primarySizeOf b.items = some sz)
    (hfresh : ∀ d ∈ store0,
      d.2.razorpay_order_id ≠ "cod_" ++ toString t ++ "_" ++ toString r) :
    ∃ p : Part006B.Payload6,
      (Part006B.run "POST" (some b) credsOk true gateway none f t r store0).store
        = store0 ++ [(f, p)] ∧
      (Part006B.run "POST" (some b) credsOk true gateway none f t r store0).dbAction
        = some (DbAction.created f) ∧
      (Part006B.run "POST" (some b) credsOk true gateway none f t r store0).gatewayCalls
        = [] ∧
      Part006B.respOrderId
          (Part006B.run "POST" (some b) credsOk true gateway none f t r store0)
        = some ("cod_" ++ toString t ++ "_" ++ toString r) ∧
      p.razorpay_order_id = "cod_" ++ toString t ++ "_" ++ toString r ∧
      p.status = "pending" ∧
      codPattern ("cod_" ++ toString t ++ "_" ++ toString r) := by
  obtain ⟨p, hst, hact, hk, hstat, hcalls, hresp⟩ :=
    run6_cod_projections b sz credsOk gateway f t r store0 hpm hu hship hsz
  have hup := upsertByOrderId_fresh Part006B.Payload6.razorpay_order_id store0 f p
    (by intro d hd; rw [hk]; exact hfresh d hd)
  exact ⟨p, by rw [hst, hup], by rw [hact, hup], hcalls, hresp, hk, hstat, t, r, rfl⟩

/-- Witness for C7_cod_flow. -/
theorem C7_cod_flow_witness :
    jsToLower (jsOrD (some "cod") none "razorpay") = "cod" ∧
    ∃ p : Part006B.Payload6,
      (Part006B.run "POST"
          (some { userId := some "u1", items := [{ size := some "M" }],
                  paymentMethod := some "cod",
                  shipping := ShipVal.obj { city := some "Pune" } })
          true true (fun _ => .ok ⟨"never", 0, "INR", "none"⟩) none 21 5 7 []).store
        = [] ++ [(21, p)] ∧
      (Part006B.run "POST"
          (some { userId := some "u1", items := [{ size := some "M" }],
                  paymentMethod := some "cod",
                  shipping := ShipVal.obj { city := some "Pune" } })
          true true (fun _ => .ok ⟨"never", 0, "INR", "none"⟩) none 21 5 7 []).dbAction
        = some (DbAction.created 21) ∧
      (Part006B.run "POST"
          (some { userId := some "u1", items := [{ size := some "M" }],
                  paymentMethod := some "cod",
                  shipping := ShipVal.obj { city := some "Pune" } })
          true true (fun _ => .ok ⟨"never", 0, "INR", "none"⟩) none 21 5 7 []).gatewayCalls
        = [] ∧
      Part006B.respOrderId
          (Part006B.run "POST"
            (some { userId := some "u1", items := [{ size := some "M" }],
                    paymentMethod := some "cod",
                    shipping := ShipVal.obj { city := some "Pune" } })
            true true (fun _ => .ok ⟨"never", 0, "INR", "none"⟩) none 21 5 7 [])
        = some ("cod_" ++ toString 5 ++ "_" ++ toString 7) ∧
      p.razorpay_order_id = "cod_" ++ toString 5 ++ "_" ++ toString 7 ∧
      p.status = "pending" ∧
      codPattern ("cod_" ++ toString 5 ++ "_" ++ toString 7) :=
  ⟨by decide,
   C7_cod_flow
     { userId := some "u1", items := [{ size := some "M" }],
       paymentMethod := some "cod", shipping := ShipVal.obj { city := some "Pune" } }
     "M" true (fun _ => .ok ⟨"never", 0, "INR", "none"⟩) 21 5 7 []
     (by decide) (by decide) (by decide) (by decide) (by intro d hd; cases hd)⟩

/-- Claim C3 counterexample: in the part_013 debug variant the document
write is awaited and its failure after a successful gateway order creation
is reported as a 500 failure response with success false — the whole
operation is reported as failed, contradicting the claim. -/
theorem C3_counterexample :
    Part013A.run "POST" (some { userId := some "u1", amount := some 100 })
        (fun _ => .ok ⟨"order_abc", 10000, "INR", "rcpt_1"⟩) (some "disk full") "D1" 5 =
      ⟨.json { success := false
               message := some "Order created in Razorpay but failed to save in DB"
               orderInfo := some ("order_abc", 10000, "INR")
               dbError := some "disk full" } 500,
       [⟨10000, "INR", "order_rcpt_5"⟩], []⟩ ∧
    Part013A.respSuccess
      (Part013A.run "POST" (some { userId := some "u1", amount := some 100 })
        (fun _ => .ok ⟨"order_abc", 10000, "INR", "rcpt_1"⟩) (some "disk full") "D1" 5)
      = some false := by
  refine ⟨by decide, by decide⟩

/-- Claim C3 (amended): the partial-success contract holds in part_011 — a
store failure after a successful gateway order yields success true with the
order details, dbSaved false and the store error attached — while the
part_013 debug variant (and the both-inserts-failed path of src/index.js)
instead report the operation as failed with a 500. -/
theorem C3_store_failure_partial_success :
    (∀ (b : SimpleBody) (n : Int) (g : RemoteOrder) (e docId : String) (t : Nat),
      toNullable (jsOrS b.userId (jsOrS b.userID b.user)) ≠ none →
      b.amount = some n → 0 < n →
      Part011.run "POST" (some b) (fun _ => .ok g) (some e) docId t =
        ⟨.json { success := true, orderId := some g.id, amount := some g.amount,
                 currency := some g.currency, dbSaved := some false,
                 dbError := some e } 200,
         [⟨n * 100, b.currency.getD "INR", "order_rcpt_" ++ toString t⟩], []⟩) ∧
    (∀ (b : SimpleBody) (n : Int) (g : RemoteOrder) (e docId : String) (t : Nat),
      toNullable b.userId ≠ none → b.amount = some n → 0 < n →
      Part013A.run "POST" (some b) (fun _ => .ok g) (some e) docId t =
        ⟨.json { success := false
                 message := some "Order created in Razorpay but failed to save in DB"
                 orderInfo := some (g.id, g.amount, g.currency)
                 dbError := some e } 500,
         [⟨n * 100, b.currency.getD "INR", "order_rcpt_" ++ toString t⟩], []⟩) := by
  constructor
  · intro b n g e docId t hu hamt hn
    unfold Part011.run
    simp only [Option.getD_some]
    rw [hamt]
    simp only [Option.getD_some]
    rw [if_pos trivial]
    rw [if_neg (by
      push_neg
      exact ⟨hu, by simp, by simp [hn.ne.symm]⟩)]
    rw [if_neg (not_le.mpr hn)]
  · intro b n g e docId t hu hamt hn
    unfold Part013A.run
    simp only [Option.getD_some]
    rw [hamt]
    simp only [Option.getD_some]
    rw [if_pos trivial]
    rw [if_neg (by
      push_neg
      exact ⟨hu, by simp⟩)]
    rw [if_neg (not_le.mpr hn)]

/-- Witness for C3_store_failure_partial_success. -/
theorem C3_store_failure_partial_success_witness :
    (toNullable (jsOrS (some "u1") (jsOrS none none)) ≠ none ∧ (0 : Int) < 100 ∧
      Part011.run "POST" (some { userId := some "u1", amount := some 100 })
          (fun _ => .ok ⟨"order_abc", 10000, "INR", "rcpt_1"⟩) (some "disk full") "D1" 5 =
        ⟨.json { success := true, orderId := some "order_abc", amount := some 10000,
                 currency := some "INR", dbSaved := some false,
                 dbError := some "disk full" } 200,
         [⟨100 * 100, ({ userId := some "u1", amount := some 100 } :
             SimpleBody).currency.getD "INR", "order_rcpt_" ++ toString 5⟩], []⟩) :=
  ⟨by decide, by decide,
   C3_store_failure_partial_success.1 { userId := some "u1", amount := some 100 } 100
     ⟨"order_abc", 10000, "INR", "rcpt_1"⟩ "disk full" "D1" 5 (by decide) rfl (by decide)⟩

/-- Claim C4 (amended): the userId-validating handler part_007 returns a 400
ValidationError with zero gateway calls and an untouched store when
customerId (userId) is absent; src/index.js, in contrast, performs no
userId validation at all and proceeds to the gateway and the store (see the
counterexample). -/
theorem C4_missing_userId_rejected (b : OrderBody)
    (credsOk configured : Bool) (gateway : GatewayReq → Except String RemoteOrder)
    (dbErr : Option String) (f t r : Nat) (store0 : List (Nat × Part007.Payload7))
    (hu : toNullable b.userId = none) :
    Part007.run "POST" (some b) credsOk configured gateway dbErr f t r store0 =
      ⟨.json { success := false,
               message := some "userId is required. Please login and send userId." } 400,
       [], store0, none⟩ := by
  unfold Part007.run
  simp only [Option.getD_some]
  rw [if_pos trivial, if_pos hu]

/-- Witness for C4_missing_userId_rejected. -/
theorem C4_missing_userId_rejected_witness :
    toNullable (({} : OrderBody).userId) = none ∧
    Part007.run "POST" (some {}) true true
        (fun _ => .ok ⟨"order_q", 1, "INR", "r"⟩) none 0 5 7 [] =
      ⟨.json { success := false,
               message := some "userId is required. Please login and send userId." } 400,
       [], [], none⟩ :=
  ⟨rfl, C4_missing_userId_rejected {} true true
    (fun _ => .ok ⟨"order_q", 1, "INR", "r"⟩) none 0 5 7 [] rfl⟩

/-- Claim C5 (amended): the timeout variant of part_009 wraps the gateway
create call in promiseWithTimeout with CREATE_TIMEOUT_MS = 10000 ms; when
the call fails or times out it responds 503 with success false
("Payment gateway unavailable") and writes zero documents.  src/index.js,
in contrast, has no timeout and reports a gateway failure as a generic 500
(see the counterexample). -/
theorem C5_timeout_unavailable :
    Part009B.CREATE_TIMEOUT_MS = 10000 ∧
    ∀ (b : SimpleBody) (n : Int) (e docId nowIso : String) (dbErr : Option String) (t : Nat),
      toNullable b.userId ≠ none → b.amount = some n → 0 < n →
      Part009B.run "POST" (some b) (fun _ => .error e) dbErr docId t nowIso =
        ⟨.json { success := false,
                 message := some "Payment gateway unavailable. Please try again." } 503,
         [⟨n * 100, b.currency.getD "INR", "order_rcpt_" ++ toString t⟩], [],
         some Part009B.CREATE_TIMEOUT_MS⟩ := by
  refine ⟨rfl, ?_⟩
  intro b n e docId nowIso dbErr t hu hamt hn
  unfold Part009B.run
  simp only [Option.getD_some]
  rw [hamt]
  simp only [Option.getD_some]
  rw [if_pos trivial]
  rw [if_neg (by
    push_neg
    exact ⟨hu, by simp⟩)]
  rw [if_neg (not_le.mpr hn)]

/-- Witness for C5_timeout_unavailable. -/
theorem C5_timeout_unavailable_witness :
    toNullable ((some "u1" : Option String)) ≠ none ∧ (0 : Int) < 100 ∧
    Part009B.run "POST" (some { userId := some "u1", amount := some 100 })
        (fun _ => .error "timeout") none "D1" 5 "2025-01-01T00:00:00.000Z" =
      ⟨.json { success := false,
               message := some "Payment gateway unavailable. Please try again." } 503,
       [⟨100 * 100, ({ userId := some "u1", amount := some 100 } :
           SimpleBody).currency.getD "INR", "order_rcpt_" ++ toString 5⟩], [],
       some Part009B.CREATE_TIMEOUT_MS⟩ :=
  ⟨by decide, by decide,
   C5_timeout_unavailable.2 { userId := some "u1", amount := some 100 } 100
     "timeout" "D1" "2025-01-01T00:00:00.000Z" none 5 (by decide) rfl (by decide)⟩

/-- Claim C9 (amended): the stored shipping_postal_code of src/index.js is
the client's postal_code string taken verbatim (falling back to zip, and to
null when both are falsy); no digit-stripping or integer coercion ever
happens. -/
theorem C9_postal_passthrough (b : IndexJs.Body) (amt : ℚ) (g : RemoteOrder)
    (docId1 docId2 : String) (t r : Nat) (store0 : List (String × IndexJs.OrderDoc))
    (hamt : b.amount = some amt) (ha : 0 < amt) :
    ∃ doc : IndexJs.OrderDoc,
      IndexJs.run true "POST" (some b) (fun _ => .ok g) none none
          docId1 docId2 t r store0 =
        ⟨.json { success := true
                 razorpayOrderId := some g.id
                 razorpayAmount := some g.amount
                 razorpayCurrency := some g.currency
                 razorpayReceipt := some g.receipt
                 documentId := some docId1
                 used := some "primary" } 201,
         [⟨jsRound (amt * 100), b.currency.getD "INR",
           "order_rcpt_" ++ toString t ++ "_" ++ toString r⟩],
         store0 ++ [(docId1, doc)]⟩ ∧
      doc.shipping_postal_code =
        orNull2 (b.shipping.getD {}).postal_code (b.shipping.getD {}).zip := by
  unfold IndexJs.run
  simp only [Option.getD_some]
  rw [hamt]
  simp only [if_neg (not_le.mpr ha)]
  exact ⟨_, rfl, rfl⟩

/-- Witness for C9_postal_passthrough. -/
theorem C9_postal_passthrough_witness :
    (0 : ℚ) < 100 ∧
    ∃ doc : IndexJs.OrderDoc,
      IndexJs.run true "POST"
          (some { amount := some 100
                  userId := some "u1"
                  shipping := some { postal_code := some "560 0 34" } })
          (fun _ => .ok ⟨"order_p", 10000, "INR", "rcpt_p"⟩) none none
          "D1" "D2" 5 7 [] =
        ⟨.json { success := true
                 razorpayOrderId := some "order_p"
                 razorpayAmount := some 10000
                 razorpayCurrency := some "INR"
                 razorpayReceipt := some "rcpt_p"
                 documentId := some "D1"
                 used := some "primary" } 201,
         [⟨jsRound (100 * 100),
           ({ amount := some 100
              userId := some "u1"
              shipping := some { postal_code := some "560 0 34" } } :
             IndexJs.Body).currency.getD "INR",
           "order_rcpt_" ++ toString 5 ++ "_" ++ toString 7⟩],
         [] ++ [("D1", doc)]⟩ ∧
      doc.shipping_postal_code =
        orNull2 (({ amount := some 100
                    userId := some "u1"
                    shipping := some { postal_code := some "560 0 34" } } :
            IndexJs.Body).shipping.getD {}).postal_code
          (({ amount := some 100
              userId := some "u1"
              shipping := some { postal_code := some "560 0 34" } } :
            IndexJs.Body).shipping.getD {}).zip :=
  ⟨by norm_num,
   C9_postal_passthrough
     { amount := some 100
       userId := some "u1"
       shipping := some { postal_code := some "560 0 34" } } 100
     ⟨"order_p", 10000, "INR", "rcpt_p"⟩ "D1" "D2" 5 7 [] rfl (by norm_num)⟩

/-- Witness for C10_fallback_insert. -/
theorem C10_fallback_insert_witness :
    (0 : ℚ) < 100 ∧
    ∃ doc : IndexJs.OrderDoc,
      IndexJs.run true "POST" (some { amount := some 100, userId := some "u1" })
          (fun _ => .ok ⟨"order_w", 10000, "INR", "rcpt_w"⟩) (some "schema error") none
          "D1" "D2" 5 7 [] =
        ⟨.json { success := true
                 razorpayOrderId := some "order_w"
                 razorpayAmount := some 10000
                 razorpayCurrency := some "INR"
                 razorpayReceipt := some "rcpt_w"
                 documentId := some "D2"
                 used := some "fallback_items_summary"
                 warning := some "Primary create failed; fallback with items_summary succeeded. Consider updating collection schema to accept items as text or rename attribute."
                 primaryError := some "schema error" } 201,
         [⟨jsRound (100 * 100), ({ amount := some 100, userId := some "u1" } :
             IndexJs.Body).currency.getD "INR",
           "order_rcpt_" ++ toString 5 ++ "_" ++ toString 7⟩],
         [] ++ [("D2", doc)]⟩ ∧
      doc.items = none ∧
      doc.items_summary = some (IndexJs.items_summary_of
        ((({ amount := some 100, userId := some "u1" } : IndexJs.Body)).items.getD [])) ∧
      doc.razorpay_order_id = "order_w" :=
  ⟨by norm_num,
   C10_fallback_insert { amount := some 100, userId := some "u1" } 100
     ⟨"order_w", 10000, "INR", "rcpt_w"⟩ "schema error" "D1" "D2" 5 7 [] rfl (by norm_num)⟩

end RazorpayCreateOrder
